import Mathlib

set_option maxRecDepth 8000

/-!
Verification of the qbx_minigames puzzle engines against their
natural-language specification.  The definitions below are shallow
embeddings of the TypeScript/Svelte sources:
  * Circuit Solver  (web/src/minigames/CircuitSolver component)
  * Code Cracker    (web/src/minigames/CodeCracker.svelte)
  * Safe Cracker    (web/src/minigames/SafeCracker.svelte)
  * Thermite        (web/src/minigames/Thermite.svelte)
  * CountdownTimer  (web/src/utils.ts)
Machine integers are modelled as Nat / Int; JS arrays as List; the
mutable grids as functions or Finset state threaded explicitly.
-/

/-! ### Circuit Solver: pieces and rotation -/

/-- Direction connection record of a circuit piece, mirroring the
`Connections` type of the source: `top`, `right`, `bottom`, `left`. -/
structure Connections where
  top : Bool
  right : Bool
  bottom : Bool
  left : Bool
deriving DecidableEq, Repr

/-- The seven circuit piece types of the source. -/
inductive PieceType where
  | straight
  | corner
  | threeWay
  | fourWay
  | empty
  | source
  | destination
deriving DecidableEq, Repr

/-- Source `pieceDefs`: the base connection set of every piece type, copied
from the `pieceDefs` record of the source. -/
def pieceDefs : PieceType → Connections
  | .straight => ⟨true, false, true, false⟩
  | .corner => ⟨true, true, false, false⟩
  | .threeWay => ⟨true, true, true, false⟩
  | .fourWay => ⟨true, true, true, true⟩
  | .empty => ⟨false, false, false, false⟩
  | .source => ⟨false, true, false, false⟩
  | .destination => ⟨false, false, false, true⟩

/-- One iteration of the rotation loop in `rotateConnections`:
`top := left, right := top, bottom := right, left := bottom`
(a quarter turn clockwise). -/
def rotStep (c : Connections) : Connections :=
  ⟨c.left, c.top, c.right, c.bottom⟩

/-- Source `rotateConnections(connections, rotation)`: applies the quarter-turn
loop `rotation / 90` times (the for loop `i < rotation / 90`). -/
def rotateConnections (c : Connections) (rotation : Nat) : Connections :=
  rotStep^[rotation / 90] c

/-- The `CircuitPiece` record of the source. -/
structure CircuitPiece where
  type : PieceType
  rotation : Nat
  connections : Connections
  powered : Bool
  fixed : Bool
deriving DecidableEq, Repr

/-- Source `createPiece(type, rotation)`: connections are the rotated base
connections, `powered` iff the type is `source`, `fixed` iff the type is
`source` or `destination`. -/
def createPiece (t : PieceType) (rotation : Nat) : CircuitPiece :=
  { type := t
    rotation := rotation
    connections := rotateConnections (pieceDefs t) rotation
    powered := t = PieceType.source
    fixed := t = PieceType.source ∨ t = PieceType.destination }

/-- Session phase of the single-phase minigames
(`idle | playing | success | failure`). -/
inductive GState where
  | idle
  | playing
  | success
  | failure
deriving DecidableEq, Repr

/-- Source `handlePieceClick` restricted to the clicked piece: a no-op unless
the game is `playing` and the piece is not fixed; otherwise the rotation
becomes `(rotation + 90) % 360` and the connections are recomputed from
the base connection set of the type at the new rotation.  (The
subsequent power-flow update is modelled separately by
`updatePowerFlow`.) -/
def handlePieceClick (gs : GState) (p : CircuitPiece) : CircuitPiece :=
  if gs ≠ GState.playing then p
  else if p.fixed then p
  else
    let r := (p.rotation + 90) % 360
    { p with rotation := r, connections := rotateConnections (pieceDefs p.type) r }

/-! ### Circuit Solver: power propagation -/

/-- A grid of circuit pieces, indexed by (row, col). -/
def Grid (n : Nat) := Fin n → Fin n → CircuitPiece

/-- Mutual-connection adjacency used by `propagatePower`: power flows
from cell `p` to cell `q` when they are grid-adjacent and the piece at
`p` exposes a connection toward `q` while the piece at `q` exposes the
opposite connection back (the four direction cases of the source, with
the bounds checks expressed by the index equations on `Fin n`). -/
def connB {n : Nat} (g : Grid n) (p q : Fin n × Fin n) : Bool :=
  let pc := (g p.1 p.2).connections
  let qc := (g q.1 q.2).connections
  (q.2 = p.2 ∧ (q.1 : Nat) + 1 = (p.1 : Nat) ∧ pc.top ∧ qc.bottom) ∨
  (q.1 = p.1 ∧ (p.2 : Nat) + 1 = (q.2 : Nat) ∧ pc.right ∧ qc.left) ∨
  (q.2 = p.2 ∧ (p.1 : Nat) + 1 = (q.1 : Nat) ∧ pc.bottom ∧ qc.top) ∨
  (q.1 = p.1 ∧ (q.2 : Nat) + 1 = (p.2 : Nat) ∧ pc.left ∧ qc.right)

/-- One round of the power flood: every cell already powered stays
powered, and every cell connected (mutually) to a powered cell becomes
powered. -/
def powStep {n : Nat} (g : Grid n) (s : Finset (Fin n × Fin n)) :
    Finset (Fin n × Fin n) :=
  s ∪ Finset.univ.filter (fun q => ∃ p ∈ s, connB g p q = true)

/-- The flood iterated `k` rounds from the initially powered set. -/
def propagateN {n : Nat} (g : Grid n) (s : Finset (Fin n × Fin n)) (k : Nat) :
    Finset (Fin n × Fin n) :=
  (powStep g)^[k] s

/-- Source `updatePowerFlow`: the powered flags of all non-source pieces are
reset to false (so the surviving powered set is the source-typed part of
the previous one), then `propagatePower` floods from the source cell.
The recursive DFS of the source visits exactly the cells reachable
through mutual connections, here computed by iterating the one-round
flood to its fixed point (`n * n` rounds suffice on an `n × n` grid);
the flood runs only when the source cell itself is still powered, since
`propagatePower` returns at once on an unpowered start cell. -/
def updatePowerFlow {n : Nat} (g : Grid n) (src : Fin n × Fin n)
    (prev : Finset (Fin n × Fin n)) : Finset (Fin n × Fin n) :=
  let reset := prev.filter (fun p => (g p.1 p.2).type = PieceType.source)
  if src ∈ reset then propagateN g reset (n * n) else reset

/-- Reachability from the source along mutual connections. -/
def Reach {n : Nat} (g : Grid n) (src q : Fin n × Fin n) : Prop :=
  Relation.ReflTransGen (fun a b => connB g a b = true) src q

/-! ### Code Cracker -/

/-- First pass of `checkGuess`: scan the positions in lockstep; where
guess and code agree, count one `correct` and null out (here: `none`)
both slots, otherwise keep the slots (wrapped in `some`) for the second
pass. -/
def pass1 {α : Type} [DecidableEq α] :
    List α → List α → Nat × List (Option α) × List (Option α)
  | g :: gs, c :: cs =>
    let r := pass1 gs cs
    if g = c then (r.1 + 1, none :: r.2.1, none :: r.2.2)
    else (r.1, some g :: r.2.1, some c :: r.2.2)
  | [], cs => (0, [], cs.map some)
  | gs, [] => (0, gs.map some, [])

/-- The `codeCopy.findIndex` call followed by nulling that slot: replace the
first remaining slot holding `a` by `none`; `none` if no slot matches. -/
def removeFirst {α : Type} [DecidableEq α] (a : α) :
    List (Option α) → Option (List (Option α))
  | [] => none
  | c :: cs =>
    if c = some a then some (none :: cs)
    else (removeFirst a cs).map (c :: ·)

/-- Second pass of `checkGuess`: for each remaining guess slot, if some
remaining code slot holds the same color, count one `misplaced` and
consume that code slot. -/
def pass2 {α : Type} [DecidableEq α] :
    List (Option α) → List (Option α) → Nat
  | [], _ => 0
  | none :: gs, cs => pass2 gs cs
  | some g :: gs, cs =>
    match removeFirst g cs with
    | some cs' => pass2 gs cs' + 1
    | none => pass2 gs cs

/-- Source `checkGuess(guess, code)`: the (correct, misplaced) feedback,
computed by the two passes of the source. -/
def checkGuess {α : Type} [DecidableEq α] (guess code : List α) : Nat × Nat :=
  ((pass1 guess code).1,
   pass2 (pass1 guess code).2.1 (pass1 guess code).2.2)

/-- The 8-color palette `colorOptions` of the source. -/
def colorOptions : List String :=
  ["#FF5252", "#4CAF50", "#2196F3", "#FFC107",
   "#9C27B0", "#FF9800", "#00BCD4", "#607D8B"]

/-- A metric value of the outbound completion payload: a number or the
secret color list. -/
inductive MetricVal where
  | num (v : Nat)
  | colors (cs : List String)
deriving DecidableEq, Repr

/-- Outbound completion payload: success flag plus the named metric
fields, keyed by the JS object key used in the source. -/
def GameResult := Bool × List (String × MetricVal)

/-- Code Cracker configuration fields used by the state machine. -/
structure CCConfig where
  codeLength : Nat
  attempts : Nat
deriving DecidableEq, Repr

/-- Code Cracker mutable session state (`gameState`, `timeLeft`,
`currentAttempt`, `attempts`, `feedback`, `secretCode`, `currentGuess`,
`selectedPosition`). -/
structure CCState where
  gameState : GState
  timeLeft : Nat
  currentAttempt : Nat
  attempts : List (List (Option String))
  feedback : List (Nat × Nat)
  secretCode : List String
  currentGuess : List (Option String)
  selectedPosition : Nat
deriving DecidableEq, Repr

/-- Source `resetGame` followed by `startGame`: empty attempt rows, zero
feedback, empty current guess, position 0, phase `playing`. -/
def ccResetState (cfg : CCConfig) (secret : List String) (t : Nat) : CCState :=
  { gameState := GState.playing
    timeLeft := t
    currentAttempt := 0
    attempts := List.replicate cfg.attempts (List.replicate cfg.codeLength none)
    feedback := List.replicate cfg.attempts (0, 0)
    secretCode := secret
    currentGuess := List.replicate cfg.codeLength none
    selectedPosition := 0 }

/-- Source `selectPosition(position)`: ignored unless playing. -/
def selectPosition (s : CCState) (i : Nat) : CCState :=
  if s.gameState ≠ GState.playing then s
  else { s with selectedPosition := i }

/-- Source `selectColor(color)`: ignored unless playing; writes the color at
the selected position and auto-advances while not at the last slot. -/
def selectColor (cfg : CCConfig) (s : CCState) (c : String) : CCState :=
  if s.gameState ≠ GState.playing then s
  else
    let s' := { s with currentGuess := s.currentGuess.set s.selectedPosition (some c) }
    if s.selectedPosition < cfg.codeLength - 1 then
      { s' with selectedPosition := s.selectedPosition + 1 }
    else s'

/-- Code Cracker `handleGameOver(success)`: the phase becomes terminal
and, after the 2000 ms presentation delay, the completion payload is
dispatched with fields `timeRemaining`, `attempts` (the JS key used in
the source) and `secretCode`.  Returned as (new state, delay ms,
payload). -/
def ccHandleGameOver (s : CCState) (success : Bool) :
    CCState × Nat × GameResult :=
  ({ s with gameState := if success then GState.success else GState.failure },
   2000,
   (success,
    [("timeRemaining", MetricVal.num s.timeLeft),
     ("attempts", MetricVal.num (s.currentAttempt + 1)),
     ("secretCode", MetricVal.colors s.secretCode)]))

/-- Source `submitGuess()`: rejected unless playing; rejected (sound only, no
state change) when any slot of the current guess is unfilled; otherwise
the guess and its feedback are recorded, a full-correct guess wins, an
exhausted attempt budget loses, and otherwise the next attempt starts
with a cleared guess.  The second component is the dispatched (delay,
payload) when the session reached a terminal state. -/
def submitGuess (cfg : CCConfig) (s : CCState) :
    CCState × Option (Nat × GameResult) :=
  if s.gameState ≠ GState.playing then (s, none)
  else if none ∈ s.currentGuess then (s, none)
  else
    let result := checkGuess s.currentGuess.reduceOption s.secretCode
    let s1 := { s with
      attempts := s.attempts.set s.currentAttempt s.currentGuess
      feedback := s.feedback.set s.currentAttempt result }
    if result.1 = cfg.codeLength then
      let (s2, d, r) := ccHandleGameOver s1 true
      (s2, some (d, r))
    else if cfg.attempts - 1 ≤ s.currentAttempt then
      let (s2, d, r) := ccHandleGameOver s1 false
      (s2, some (d, r))
    else
      ({ s1 with
          currentAttempt := s.currentAttempt + 1
          currentGuess := List.replicate cfg.codeLength none
          selectedPosition := 0 }, none)

/-- The player fills the whole current guess: for each color, select its
position and then the color (the net effect of the `selectPosition` /
`selectColor` interactions in the source). -/
def fillGuess (cfg : CCConfig) (s : CCState) (g : List String) : CCState :=
  (g.enum).foldl (fun st ci => selectColor cfg (selectPosition st ci.1) ci.2) s

/-! ### Safe Cracker -/

/-- A success zone: `start`/`end` degrees (the `end` key of the source
is written `endD` here, `end` being reserved in Lean) and the `found`
flag. -/
structure Zone where
  start : Nat
  endD : Nat
  found : Bool
deriving DecidableEq, Repr

/-- The overlap test of `generateSuccessZones` between a candidate
interval `[startP, startP + size]` and an accepted zone `z` (the three
inclusive-range disjuncts of the source). -/
def zoneOverlap (startP size : Nat) (z : Zone) : Prop :=
  (z.start ≤ startP ∧ startP ≤ z.endD) ∨
  (z.start ≤ startP + size ∧ startP + size ≤ z.endD) ∨
  (startP ≤ z.start ∧ z.start ≤ startP + size)

instance (startP size : Nat) (z : Zone) : Decidable (zoneOverlap startP size z) := by
  unfold zoneOverlap; infer_instance

/-- The zone lists `generateSuccessZones` can produce: starting from the
empty list, repeatedly accept a zone whose size is drawn from
`[MIN_ZONE_SIZE, MAX_ZONE_SIZE] = [10, 30]`, whose start is drawn from
`[0, 360 - size]`, and which passes the overlap rejection test against
every zone accepted so far (the rejection loop resamples until this
holds, so exactly these lists are reachable when the loop terminates). -/
inductive genZones : List Zone → Prop
  | nil : genZones []
  | snoc (zs : List Zone) (size startP : Nat) :
      genZones zs →
      10 ≤ size → size ≤ 30 →
      startP ≤ 360 - size →
      (∀ z ∈ zs, ¬ zoneOverlap startP size z) →
      genZones (zs ++ [⟨startP, startP + size, false⟩])

/-- Two zones occupy disjoint closed degree intervals. -/
def zonesDisjoint (a b : Zone) : Prop :=
  a.endD < b.start ∨ b.endD < a.start

/-- Safe Cracker mutable session state (the fields the terminal
transition reads). -/
structure SCState where
  gameState : GState
  timeLeft : Nat
  foundZonesCount : Nat
  zones : List Zone
deriving DecidableEq, Repr

/-- Source `showUnfoundZones()`: every unfound zone has its `found` flag set to
true, purely to highlight it. -/
def showUnfoundZones (zs : List Zone) : List Zone :=
  zs.map (fun z => if z.found then z else { z with found := true })

/-- Safe Cracker `handleGameOver(success)`: terminal phase; on failure
the unfound zones are overwritten as found for display; after the
2000 ms delay the payload carries `timeRemaining`, `zonesFound` (the
counter) and `totalZones` (`config.zones`). -/
def scHandleGameOver (cfgZones : Nat) (s : SCState) (success : Bool) :
    SCState × Nat × GameResult :=
  ({ s with
      gameState := if success then GState.success else GState.failure
      zones := if success then s.zones else showUnfoundZones s.zones },
   2000,
   (success,
    [("timeRemaining", MetricVal.num s.timeLeft),
     ("zonesFound", MetricVal.num s.foundZonesCount),
     ("totalZones", MetricVal.num cfgZones)]))

/-! ### CountdownTimer (utils) -/

/-- The `CountdownTimer` state: the absolute `startTime`, the `duration`,
and whether the periodic tick resource (`timerInterval`) is held. -/
structure TimerState where
  startTime : Int
  duration : Int
  running : Bool
deriving DecidableEq, Repr

/-- The remaining time computed on every tick:
`max(0, duration - (now - startTime))`. -/
def remainingAt (t : TimerState) (now : Int) : Int :=
  max 0 (t.duration - (now - t.startTime))

/-- Source `start()`: re-bases `startTime` to now and acquires the interval. -/
def timerStart (t : TimerState) (now : Int) : TimerState :=
  { t with startTime := now, running := true }

/-- Source `stop()`: clears the interval when it is held, otherwise a no-op. -/
def timerStop (t : TimerState) : TimerState :=
  { t with running := false }

/-- One interval tick at wall-clock instant `now`: when the resource is
held, the update callback receives the recomputed remaining time, and if
it is `≤ 0` the timer stops itself and then fires the completion
callback.  Returns (new state, reported remaining if any, whether the
completion callback fired). -/
def timerTick (t : TimerState) (now : Int) : TimerState × Option Int × Bool :=
  if t.running then
    let rem := remainingAt t now
    if rem ≤ 0 then (timerStop t, some rem, true)
    else (t, some rem, false)
  else (t, none, false)

/-! ### Thermite -/

/-- Thermite session phases. -/
inductive TGState where
  | idle
  | memorize
  | solving
  | success
  | failure
deriving DecidableEq, Repr

/-- Thermite mutable session state: the hidden target grid, the player
selection grid, counters, and time (grids as row lists of cell flags,
read with default `false` like the JS index accesses). -/
structure TState where
  gameState : TGState
  timeLeft : Nat
  grid : List (List Bool)
  playerGrid : List (List Bool)
  targetTotal : Nat
  selectedCount : Nat
  incorrectSelections : Nat
deriving DecidableEq, Repr

/-- Thermite `handleGameOver(success)`: terminal phase; on failure the
player grid is overwritten with the target pattern for display; the
payload is dispatched after 1500 ms on success and 2500 ms on failure
with fields `timeRemaining`, `correctSelections`, `incorrectSelections`,
`totalTargets`. -/
def tHandleGameOver (s : TState) (success : Bool) :
    TState × Nat × GameResult :=
  ({ s with
      gameState := if success then TGState.success else TGState.failure
      playerGrid := if success then s.playerGrid else s.grid },
   if success then 1500 else 2500,
   (success,
    [("timeRemaining", MetricVal.num s.timeLeft),
     ("correctSelections", MetricVal.num s.selectedCount),
     ("incorrectSelections", MetricVal.num s.incorrectSelections),
     ("totalTargets", MetricVal.num s.targetTotal)]))

/-- Read a grid cell with the out-of-range default of a JS index
access coerced to boolean. -/
def cellAt (g : List (List Bool)) (r c : Nat) : Bool :=
  (g.getD r []).getD c false

/-- Write a grid cell. -/
def cellSet (g : List (List Bool)) (r c : Nat) (v : Bool) : List (List Bool) :=
  g.set r ((g.getD r []).set c v)

/-- Thermite `handleCellClick(row, col)`: ignored outside the solving
phase and on an already-selected cell; a target cell increments the
correct counter (all targets found wins), any other cell increments the
mistake counter (three mistakes lose). -/
def handleCellClick (s : TState) (r c : Nat) :
    TState × Option (Nat × GameResult) :=
  if s.gameState ≠ TGState.solving then (s, none)
  else if cellAt s.playerGrid r c then (s, none)
  else
    let s0 := { s with playerGrid := cellSet s.playerGrid r c true }
    if cellAt s.grid r c then
      let s1 := { s0 with selectedCount := s.selectedCount + 1 }
      if s.selectedCount + 1 = s.targetTotal then
        let (s2, d, res) := tHandleGameOver s1 true
        (s2, some (d, res))
      else (s1, none)
    else
      let s1 := { s0 with incorrectSelections := s.incorrectSelections + 1 }
      if 3 ≤ s.incorrectSelections + 1 then
        let (s2, d, res) := tHandleGameOver s1 false
        (s2, some (d, res))
      else (s1, none)

/-! ### Dispatcher presentation delays -/

/-- Circuit Solver dispatch delay: `setTimeout(..., 1500)` for both
outcomes. -/
def circuitSolverDelay (_success : Bool) : Nat := 1500

/-- Memory Sequence dispatch delay: `setTimeout(..., 1500)` for both
outcomes. -/
def memorySequenceDelay (_success : Bool) : Nat := 1500

/-- Code Cracker dispatch delay, as emitted by `ccHandleGameOver`. -/
def codeCrackerDelay (success : Bool) : Nat := (ccHandleGameOver
  (ccResetState ⟨0, 0⟩ [] 0) success).2.1

/-- Safe Cracker dispatch delay, as emitted by `scHandleGameOver`. -/
def safeCrackerDelay (success : Bool) : Nat :=
  (scHandleGameOver 0 ⟨GState.playing, 0, 0, []⟩ success).2.1

/-- Thermite dispatch delay, as emitted by `tHandleGameOver`:
`setTimeout(..., success ? 1500 : 2500)`. -/
def thermiteDelay (success : Bool) : Nat :=
  (tHandleGameOver ⟨TGState.solving, 0, [], [], 0, 0, 0⟩ success).2.1

/-- A concrete 2 × 2 board, horizontal orientation at row 0: source at
(0,0), destination at (0,1), empty elsewhere. -/
def gDemo : Grid 2 := fun r c =>
  if (r, c) = ((0 : Fin 2), (0 : Fin 2)) then createPiece PieceType.source 0
  else if (r, c) = ((0 : Fin 2), (1 : Fin 2)) then createPiece PieceType.destination 0
  else createPiece PieceType.empty 0

/-! ## Theorems -/

/-- C1: The source and destination are fixed pieces.  Horizontal
orientation: `createPiece('source', 0)` exposes only a right connection
and `createPiece('destination', 0)` only a left connection, as the claim
states.  Vertical orientation: `createPiece('source', 90)` exposes only
a bottom connection as claimed, but `createPiece('destination', 270)` —
despite the source comment "Rotate destination to point up" — exposes
only a BOTTOM connection, pointing out of the grid at row gridSize-1,
not the top connection the claim states.  This theorem evaluates the
code at the failing input. -/
theorem c1_vertical_destination_points_out :
    (createPiece PieceType.source 0).connections = ⟨false, true, false, false⟩ ∧
    (createPiece PieceType.source 0).fixed = true ∧
    (createPiece PieceType.destination 0).connections = ⟨false, false, false, true⟩ ∧
    (createPiece PieceType.destination 0).fixed = true ∧
    (createPiece PieceType.source 90).connections = ⟨false, false, true, false⟩ ∧
    (createPiece PieceType.destination 270).connections = ⟨false, false, true, false⟩ ∧
    (createPiece PieceType.destination 270).connections.top = false := by
  decide

/-- A click in the playing phase on a non-fixed piece: the effect of
`handlePieceClick` on the piece record. -/
theorem click_playing_step (t : PieceType) (r : Nat) (c : Connections)
    (pw : Bool) :
    handlePieceClick GState.playing ⟨t, r, c, pw, false⟩ =
      ⟨t, (r + 90) % 360,
       rotateConnections (pieceDefs t) ((r + 90) % 360), pw, false⟩ := rfl

/-- C7: Clicking a non-fixed piece in the playing state sets its
rotation to `(rotation + 90) % 360` and recomputes its connections from
the base connection set of its type at the new rotation; four
consecutive clicks restore the original rotation and connections (and
the entire piece). -/
theorem c7_four_clicks_identity (p : CircuitPiece)
    (hfix : p.fixed = false) (hrot : p.rotation < 360)
    (hconn : p.connections = rotateConnections (pieceDefs p.type) p.rotation) :
    (handlePieceClick GState.playing p).rotation = (p.rotation + 90) % 360 ∧
    (handlePieceClick GState.playing p).connections =
      rotateConnections (pieceDefs p.type) ((p.rotation + 90) % 360) ∧
    handlePieceClick GState.playing (handlePieceClick GState.playing
      (handlePieceClick GState.playing (handlePieceClick GState.playing p))) = p := by
  obtain ⟨t, r, c, pw, fx⟩ := p
  simp only [CircuitPiece.fixed] at hfix
  simp only [CircuitPiece.rotation] at hrot
  simp only [CircuitPiece.connections, CircuitPiece.type] at hconn
  subst hfix
  have hr4 : ((((r + 90) % 360 + 90) % 360 + 90) % 360 + 90) % 360 = r := by omega
  refine ⟨rfl, rfl, ?_⟩
  rw [click_playing_step, click_playing_step, click_playing_step,
    click_playing_step, hr4, hconn]

/-- Witness for C7 at a concrete piece: a straight piece at rotation
90 with the invariant connections. -/
theorem c7_four_clicks_identity_witness :
    (handlePieceClick GState.playing (createPiece PieceType.straight 90)).rotation
      = ((createPiece PieceType.straight 90).rotation + 90) % 360 ∧
    (handlePieceClick GState.playing (createPiece PieceType.straight 90)).connections =
      rotateConnections (pieceDefs (createPiece PieceType.straight 90).type)
        (((createPiece PieceType.straight 90).rotation + 90) % 360) ∧
    handlePieceClick GState.playing (handlePieceClick GState.playing
      (handlePieceClick GState.playing (handlePieceClick GState.playing
        (createPiece PieceType.straight 90)))) = createPiece PieceType.straight 90 :=
  c7_four_clicks_identity (createPiece PieceType.straight 90)
    (by decide) (by decide) (by decide)

/-- C8: In the playing state, submitting a guess with an unfilled slot
changes nothing: the whole state is returned unchanged and nothing is
dispatched (so in particular the attempt counter is untouched). -/
theorem c8_incomplete_guess_rejected (cfg : CCConfig) (s : CCState)
    (hp : s.gameState = GState.playing) (h : none ∈ s.currentGuess) :
    submitGuess cfg s = (s, none) := by
  simp [submitGuess, hp, h]

/-- Witness for C8: the freshly reset state has an all-empty guess. -/
theorem c8_incomplete_guess_rejected_witness :
    submitGuess ⟨4, 6⟩ (ccResetState ⟨4, 6⟩ colorOptions 30000) =
      (ccResetState ⟨4, 6⟩ colorOptions 30000, none) :=
  c8_incomplete_guess_rejected ⟨4, 6⟩ (ccResetState ⟨4, 6⟩ colorOptions 30000)
    rfl (by decide)

/-- C9: The CountdownTimer contract.  While the tick resource is held,
every tick reports `remaining = max 0 (duration - (now - start))`; the
reported value is non-negative and non-increasing under a monotone
clock; when it reaches 0 the tick stops the timer and fires the
completion callback, after which no further tick fires it again or
reports anything (the resource is released, so the callback fires
exactly once); and `stop()` is idempotent. -/
theorem c9_countdown_contract (t : TimerState) (now now' : Int)
    (hrun : t.running = true) :
    (timerTick t now).2.1 = some (max 0 (t.duration - (now - t.startTime))) ∧
    (0 ≤ remainingAt t now ∧ (now ≤ now' → remainingAt t now' ≤ remainingAt t now)) ∧
    (remainingAt t now ≤ 0 →
      (timerTick t now).2.2 = true ∧
      (timerTick t now).1.running = false ∧
      (timerTick (timerTick t now).1 now').2.2 = false ∧
      (timerTick (timerTick t now).1 now').2.1 = none) ∧
    timerStop (timerStop t) = timerStop t := by
  refine ⟨?_, ⟨le_max_left _ _, fun h => ?_⟩, fun h0 => ?_, rfl⟩
  · simp only [timerTick, hrun, if_true, remainingAt]
    split <;> rfl
  · exact max_le_max le_rfl (by omega)
  · refine ⟨?_, ?_, ?_, ?_⟩ <;> simp [timerTick, hrun, h0, timerStop]

/-- Pass 1 counts exactly the positions where guess and code agree. -/
theorem pass1_correct_count {α : Type} [DecidableEq α] (g c : List α) :
    (pass1 g c).1 = (g.zip c).countP (fun p => p.1 = p.2) := by
  induction g generalizing c with
  | nil => simp [pass1]
  | cons x gs ih =>
    cases c with
    | nil => simp [pass1]
    | cons y cs =>
      by_cases hxy : x = y <;>
        simp [pass1, hxy, List.countP_cons, ih cs]

/-- Scoring a guess against itself marks every position correct. -/
theorem pass1_self {α : Type} [DecidableEq α] (g : List α) :
    pass1 g g = (g.length, List.replicate g.length none,
      List.replicate g.length none) := by
  induction g with
  | nil => simp [pass1]
  | cons x gs ih => simp [pass1, ih, List.replicate_succ]

/-- C3: `checkGuess` returns `correct` equal to the number of positions
where the guess matches the secret; on the spec instance
guess = [R,G,B,B] against secret = [R,B,G,G] (palette colors red, green,
blue) it returns correct = 1, misplaced = 2; and re-scoring the same
pair returns the same result. -/
theorem c3_checkGuess_scoring (guess code : List String)
    (h : guess.length = code.length) :
    (checkGuess guess code).1 = (guess.zip code).countP (fun p => p.1 = p.2) ∧
    checkGuess ["#FF5252", "#4CAF50", "#2196F3", "#2196F3"]
      ["#FF5252", "#2196F3", "#4CAF50", "#4CAF50"] = (1, 2) ∧
    checkGuess guess code = checkGuess guess code :=
  ⟨pass1_correct_count guess code, by decide, rfl⟩

/-- Witness for C3 at concrete equal-length lists. -/
theorem c3_checkGuess_scoring_witness :
    (checkGuess ["#FF5252", "#4CAF50"] ["#4CAF50", "#4CAF50"]).1 =
      ((["#FF5252", "#4CAF50"].zip ["#4CAF50", "#4CAF50"]).countP
        (fun p => p.1 = p.2)) ∧
    checkGuess ["#FF5252", "#4CAF50", "#2196F3", "#2196F3"]
      ["#FF5252", "#2196F3", "#4CAF50", "#4CAF50"] = (1, 2) ∧
    checkGuess ["#FF5252", "#4CAF50"] ["#4CAF50", "#4CAF50"] =
      checkGuess ["#FF5252", "#4CAF50"] ["#4CAF50", "#4CAF50"] :=
  c3_checkGuess_scoring ["#FF5252", "#4CAF50"] ["#4CAF50", "#4CAF50"] rfl

/-- Dropping the `some` wrappers of a fully filled guess. -/
theorem reduceOption_of_map_some {α : Type} (l : List α) :
    (l.map some).reduceOption = l := by
  induction l with
  | nil => rfl
  | cons x xs ih => simp [List.reduceOption_cons_of_some, ih]

/-- Scoring a guess against itself: every position is correct. -/
theorem checkGuess_self_correct {α : Type} [DecidableEq α] (g : List α) :
    (checkGuess g g).1 = g.length := by
  simp [checkGuess, pass1_self]

/-- Filling all four slots of an empty guess (codeLength 4) through the
`selectPosition` / `selectColor` handlers. -/
theorem fillGuess_four (s : CCState) (hp : s.gameState = GState.playing)
    (hcg : s.currentGuess = List.replicate 4 none) (x1 x2 x3 x4 : String) :
    fillGuess ⟨4, 6⟩ s [x1, x2, x3, x4] =
      { s with currentGuess := [some x1, some x2, some x3, some x4],
               selectedPosition := 3 } := by
  obtain ⟨gs, tl, ca, att, fb, sc, cg, sp⟩ := s
  dsimp only at hp hcg
  subst hp
  subst hcg
  rfl

/-- A submitted complete, non-winning guess with attempts remaining:
the guess and feedback are recorded and the next attempt starts. -/
theorem submitGuess_next (cfg : CCConfig) (s : CCState) (g : List String)
    (hp : s.gameState = GState.playing) (hg : s.currentGuess = g.map some)
    (hwin : (checkGuess g s.secretCode).1 ≠ cfg.codeLength)
    (hatt : s.currentAttempt < cfg.attempts - 1) :
    submitGuess cfg s =
      ({ s with
          attempts := s.attempts.set s.currentAttempt (g.map some)
          feedback := s.feedback.set s.currentAttempt (checkGuess g s.secretCode)
          currentAttempt := s.currentAttempt + 1
          currentGuess := List.replicate cfg.codeLength none
          selectedPosition := 0 }, none) := by
  have hnone : ¬ (none ∈ s.currentGuess) := by rw [hg]; simp
  have hro : s.currentGuess.reduceOption = g := by
    rw [hg, reduceOption_of_map_some]
  have hatt' : ¬ (cfg.attempts - 1 ≤ s.currentAttempt) := by omega
  simp [submitGuess, hp, hnone, hro, hwin, hatt', hg, reduceOption_of_map_some]

/-- A submitted complete winning guess: the session becomes `success`
and the payload is dispatched after 2000 ms with the `attempts` field
equal to the one-based attempt index. -/
theorem submitGuess_win (cfg : CCConfig) (s : CCState) (g : List String)
    (hp : s.gameState = GState.playing) (hg : s.currentGuess = g.map some)
    (hwin : (checkGuess g s.secretCode).1 = cfg.codeLength) :
    submitGuess cfg s =
      ({ s with
          attempts := s.attempts.set s.currentAttempt (g.map some)
          feedback := s.feedback.set s.currentAttempt (checkGuess g s.secretCode)
          gameState := GState.success },
       some (2000, (true,
        [("timeRemaining", MetricVal.num s.timeLeft),
         ("attempts", MetricVal.num (s.currentAttempt + 1)),
         ("secretCode", MetricVal.colors s.secretCode)]))) := by
  have hnone : ¬ (none ∈ s.currentGuess) := by rw [hg]; simp
  have hro : s.currentGuess.reduceOption = g := by
    rw [hg, reduceOption_of_map_some]
  simp [submitGuess, hp, hnone, hro, hwin, hg, ccHandleGameOver, reduceOption_of_map_some]

/-- C5 counterexample: a concrete Code Cracker session (codeLength 4,
attempts 6) where the third submitted complete guess equals the secret:
the dispatched payload is a success whose metrics carry NO field named
`attemptsUsed`; the one-based attempt count is carried by the field
named `attempts` (value 3). -/
theorem c5_attemptsUsed_absent_counterexample :
    (submitGuess ⟨4, 6⟩ (fillGuess ⟨4, 6⟩
       (submitGuess ⟨4, 6⟩ (fillGuess ⟨4, 6⟩
         (submitGuess ⟨4, 6⟩ (fillGuess ⟨4, 6⟩
           (ccResetState ⟨4, 6⟩ ["#FF5252", "#4CAF50", "#2196F3", "#FFC107"] 30000)
           ["#4CAF50", "#FF5252", "#FF5252", "#FF5252"])).1
         ["#4CAF50", "#FF5252", "#FF5252", "#FF5252"])).1
       ["#FF5252", "#4CAF50", "#2196F3", "#FFC107"])).2.map
      (fun dr => (dr.2.1, dr.2.2.lookup "attemptsUsed", dr.2.2.lookup "attempts"))
      = some (true, none, some (MetricVal.num 3)) := by
  rfl

/-- C5 amended: in a Code Cracker session with codeLength 4 and
attempts 6, when the first two submitted complete guesses are wrong and
the third equals the secret, the emitted outcome is a success dispatched
after 2000 ms whose metrics carry the one-based attempt count in the
field named `attempts` (value 3) — there is no `attemptsUsed` field —
alongside `timeRemaining` and `secretCode`. -/
theorem c5_third_attempt_emits_attempts_three
    (a1 a2 a3 a4 b1 b2 b3 b4 c1 c2 c3 c4 : String) (t : Nat)
    (h1 : (checkGuess [a1, a2, a3, a4] [c1, c2, c3, c4]).1 ≠ 4)
    (h2 : (checkGuess [b1, b2, b3, b4] [c1, c2, c3, c4]).1 ≠ 4) :
    ∃ res : Bool × List (String × MetricVal),
      (submitGuess ⟨4, 6⟩ (fillGuess ⟨4, 6⟩
        (submitGuess ⟨4, 6⟩ (fillGuess ⟨4, 6⟩
          (submitGuess ⟨4, 6⟩ (fillGuess ⟨4, 6⟩
            (ccResetState ⟨4, 6⟩ [c1, c2, c3, c4] t)
            [a1, a2, a3, a4])).1
          [b1, b2, b3, b4])).1
        [c1, c2, c3, c4])).2 = some (2000, res) ∧
      res.1 = true ∧
      res.2.lookup "attempts" = some (MetricVal.num 3) ∧
      res.2.lookup "attemptsUsed" = none ∧
      res.2.lookup "timeRemaining" = some (MetricVal.num t) ∧
      res.2.lookup "secretCode" = some (MetricVal.colors [c1, c2, c3, c4]) := by
  have e1 : fillGuess ⟨4, 6⟩ (ccResetState ⟨4, 6⟩ [c1, c2, c3, c4] t)
      [a1, a2, a3, a4] =
      ⟨GState.playing, t, 0, List.replicate 6 (List.replicate 4 none),
       List.replicate 6 (0, 0), [c1, c2, c3, c4],
       [some a1, some a2, some a3, some a4], 3⟩ :=
    fillGuess_four _ rfl rfl a1 a2 a3 a4
  have e2 : (submitGuess ⟨4, 6⟩
      ⟨GState.playing, t, 0, List.replicate 6 (List.replicate 4 none),
       List.replicate 6 (0, 0), [c1, c2, c3, c4],
       [some a1, some a2, some a3, some a4], 3⟩).1 =
      ⟨GState.playing, t, 1,
       (List.replicate 6 (List.replicate 4 none)).set 0
         [some a1, some a2, some a3, some a4],
       (List.replicate 6 (0, 0)).set 0
         (checkGuess [a1, a2, a3, a4] [c1, c2, c3, c4]),
       [c1, c2, c3, c4], List.replicate 4 none, 0⟩ := by
    rw [submitGuess_next ⟨4, 6⟩ _ [a1, a2, a3, a4] rfl rfl h1
      (by show (0 : Nat) < 5; decide)]
    rfl
  have e3 : fillGuess ⟨4, 6⟩
      ⟨GState.playing, t, 1,
       (List.replicate 6 (List.replicate 4 none)).set 0
         [some a1, some a2, some a3, some a4],
       (List.replicate 6 (0, 0)).set 0
         (checkGuess [a1, a2, a3, a4] [c1, c2, c3, c4]),
       [c1, c2, c3, c4], List.replicate 4 none, 0⟩ [b1, b2, b3, b4] =
      ⟨GState.playing, t, 1,
       (List.replicate 6 (List.replicate 4 none)).set 0
         [some a1, some a2, some a3, some a4],
       (List.replicate 6 (0, 0)).set 0
         (checkGuess [a1, a2, a3, a4] [c1, c2, c3, c4]),
       [c1, c2, c3, c4], [some b1, some b2, some b3, some b4], 3⟩ :=
    fillGuess_four _ rfl rfl b1 b2 b3 b4
  have e4 : (submitGuess ⟨4, 6⟩
      ⟨GState.playing, t, 1,
       (List.replicate 6 (List.replicate 4 none)).set 0
         [some a1, some a2, some a3, some a4],
       (List.replicate 6 (0, 0)).set 0
         (checkGuess [a1, a2, a3, a4] [c1, c2, c3, c4]),
       [c1, c2, c3, c4], [some b1, some b2, some b3, some b4], 3⟩).1 =
      ⟨GState.playing, t, 2,
       ((List.replicate 6 (List.replicate 4 none)).set 0
         [some a1, some a2, some a3, some a4]).set 1
         [some b1, some b2, some b3, some b4],
       ((List.replicate 6 (0, 0)).set 0
         (checkGuess [a1, a2, a3, a4] [c1, c2, c3, c4])).set 1
         (checkGuess [b1, b2, b3, b4] [c1, c2, c3, c4]),
       [c1, c2, c3, c4], List.replicate 4 none, 0⟩ := by
    rw [submitGuess_next ⟨4, 6⟩ _ [b1, b2, b3, b4] rfl rfl h2
      (by show (1 : Nat) < 5; decide)]
    rfl
  have e5 : fillGuess ⟨4, 6⟩
      ⟨GState.playing, t, 2,
       ((List.replicate 6 (List.replicate 4 none)).set 0
         [some a1, some a2, some a3, some a4]).set 1
         [some b1, some b2, some b3, some b4],
       ((List.replicate 6 (0, 0)).set 0
         (checkGuess [a1, a2, a3, a4] [c1, c2, c3, c4])).set 1
         (checkGuess [b1, b2, b3, b4] [c1, c2, c3, c4]),
       [c1, c2, c3, c4], List.replicate 4 none, 0⟩ [c1, c2, c3, c4] =
      ⟨GState.playing, t, 2,
       ((List.replicate 6 (List.replicate 4 none)).set 0
         [some a1, some a2, some a3, some a4]).set 1
         [some b1, some b2, some b3, some b4],
       ((List.replicate 6 (0, 0)).set 0
         (checkGuess [a1, a2, a3, a4] [c1, c2, c3, c4])).set 1
         (checkGuess [b1, b2, b3, b4] [c1, c2, c3, c4]),
       [c1, c2, c3, c4], [some c1, some c2, some c3, some c4], 3⟩ :=
    fillGuess_four _ rfl rfl c1 c2 c3 c4
  have e6 : (submitGuess ⟨4, 6⟩
      ⟨GState.playing, t, 2,
       ((List.replicate 6 (List.replicate 4 none)).set 0
         [some a1, some a2, some a3, some a4]).set 1
         [some b1, some b2, some b3, some b4],
       ((List.replicate 6 (0, 0)).set 0
         (checkGuess [a1, a2, a3, a4] [c1, c2, c3, c4])).set 1
         (checkGuess [b1, b2, b3, b4] [c1, c2, c3, c4]),
       [c1, c2, c3, c4], [some c1, some c2, some c3, some c4], 3⟩).2 =
      some (2000, (true,
        [("timeRemaining", MetricVal.num t),
         ("attempts", MetricVal.num 3),
         ("secretCode", MetricVal.colors [c1, c2, c3, c4])])) := by
    rw [submitGuess_win ⟨4, 6⟩ _ [c1, c2, c3, c4] rfl rfl
      (checkGuess_self_correct [c1, c2, c3, c4])]
  rw [e1, e2, e3, e4, e5]
  exact ⟨(true,
    [("timeRemaining", MetricVal.num t),
     ("attempts", MetricVal.num 3),
     ("secretCode", MetricVal.colors [c1, c2, c3, c4])]),
    e6, rfl, rfl, rfl, rfl, rfl⟩

/-- Witness for the amended C5 at concrete colors. -/
theorem c5_third_attempt_emits_attempts_three_witness :
    ∃ res : Bool × List (String × MetricVal),
      (submitGuess ⟨4, 6⟩ (fillGuess ⟨4, 6⟩
        (submitGuess ⟨4, 6⟩ (fillGuess ⟨4, 6⟩
          (submitGuess ⟨4, 6⟩ (fillGuess ⟨4, 6⟩
            (ccResetState ⟨4, 6⟩ ["#9C27B0", "#FF9800", "#00BCD4", "#607D8B"] 45000)
            ["#FF9800", "#9C27B0", "#9C27B0", "#9C27B0"])).1
          ["#00BCD4", "#9C27B0", "#9C27B0", "#9C27B0"])).1
        ["#9C27B0", "#FF9800", "#00BCD4", "#607D8B"])).2 = some (2000, res) ∧
      res.1 = true ∧
      res.2.lookup "attempts" = some (MetricVal.num 3) ∧
      res.2.lookup "attemptsUsed" = none ∧
      res.2.lookup "timeRemaining" = some (MetricVal.num 45000) ∧
      res.2.lookup "secretCode" = some (MetricVal.colors
        ["#9C27B0", "#FF9800", "#00BCD4", "#607D8B"]) :=
  c5_third_attempt_emits_attempts_three
    "#FF9800" "#9C27B0" "#9C27B0" "#9C27B0"
    "#00BCD4" "#9C27B0" "#9C27B0" "#9C27B0"
    "#9C27B0" "#FF9800" "#00BCD4" "#607D8B" 45000
    (by decide) (by decide)

/-- C4 counterexample: the claim says every success dispatch waits
1.5 s and every failure dispatch waits 2.0 to 2.5 s; but Code Cracker
waits 2000 ms on success and Circuit Solver waits only 1500 ms on
failure. -/
theorem c4_delay_counterexample :
    codeCrackerDelay true ≠ 1500 ∧ circuitSolverDelay false < 2000 := by
  decide

/-- C4 amended: each minigame waits a fixed per-type presentation delay
before dispatching: 1500 ms for Circuit Solver and Memory Sequence
(both outcomes), 2000 ms for Code Cracker and Safe Cracker (both
outcomes), and 1500 ms on success / 2500 ms on failure for Thermite;
during the delay the phase is terminal, so the input handlers accept no
further player input (they return the state unchanged and dispatch
nothing). -/
theorem c4_dispatch_delays (b : Bool) (cfg : CCConfig) (s : CCState)
    (gs : GState) (p : CircuitPiece) (t : TState) (i r c : Nat)
    (color : String)
    (hcc : s.gameState = GState.success ∨ s.gameState = GState.failure)
    (hgs : gs = GState.success ∨ gs = GState.failure)
    (ht : t.gameState = TGState.success ∨ t.gameState = TGState.failure) :
    circuitSolverDelay b = 1500 ∧ memorySequenceDelay b = 1500 ∧
    codeCrackerDelay b = 2000 ∧ safeCrackerDelay b = 2000 ∧
    thermiteDelay true = 1500 ∧ thermiteDelay false = 2500 ∧
    submitGuess cfg s = (s, none) ∧ selectColor cfg s color = s ∧
    selectPosition s i = s ∧ handlePieceClick gs p = p ∧
    handleCellClick t r c = (t, none) := by
  refine ⟨rfl, rfl, by cases b <;> rfl, by cases b <;> rfl, rfl, rfl,
    ?_, ?_, ?_, ?_, ?_⟩
  · rcases hcc with h | h <;> simp [submitGuess, h]
  · rcases hcc with h | h <;> simp [selectColor, h]
  · rcases hcc with h | h <;> simp [selectPosition, h]
  · rcases hgs with h | h <;> simp [handlePieceClick, h]
  · rcases ht with h | h <;> simp [handleCellClick, h]

/-- Witness for the amended C4 at concrete terminal states. -/
theorem c4_dispatch_delays_witness :
    circuitSolverDelay true = 1500 ∧ memorySequenceDelay true = 1500 ∧
    codeCrackerDelay true = 2000 ∧ safeCrackerDelay true = 2000 ∧
    thermiteDelay true = 1500 ∧ thermiteDelay false = 2500 ∧
    submitGuess ⟨4, 6⟩
      { ccResetState ⟨4, 6⟩ colorOptions 0 with gameState := GState.success } =
      ({ ccResetState ⟨4, 6⟩ colorOptions 0 with gameState := GState.success }, none) ∧
    selectColor ⟨4, 6⟩
      { ccResetState ⟨4, 6⟩ colorOptions 0 with gameState := GState.success } "#FF5252" =
      { ccResetState ⟨4, 6⟩ colorOptions 0 with gameState := GState.success } ∧
    selectPosition
      { ccResetState ⟨4, 6⟩ colorOptions 0 with gameState := GState.success } 1 =
      { ccResetState ⟨4, 6⟩ colorOptions 0 with gameState := GState.success } ∧
    handlePieceClick GState.success (createPiece PieceType.straight 0) =
      createPiece PieceType.straight 0 ∧
    handleCellClick ⟨TGState.failure, 0, [], [], 2, 0, 0⟩ 0 0 =
      (⟨TGState.failure, 0, [], [], 2, 0, 0⟩, none) :=
  c4_dispatch_delays true ⟨4, 6⟩
    { ccResetState ⟨4, 6⟩ colorOptions 0 with gameState := GState.success }
    GState.success (createPiece PieceType.straight 0)
    ⟨TGState.failure, 0, [], [], 2, 0, 0⟩ 1 0 0 "#FF5252"
    (Or.inl rfl) (Or.inl rfl) (Or.inr rfl)

/-- C6 counterexample: `generateSuccessZones` can output the single
zone [350, 360] (size 10 drawn from [10,30], start 350 drawn from
[0, 360-10]), whose end degree is not strictly below 360. -/
theorem c6_zone_end_360_counterexample :
    genZones [⟨350, 360, false⟩] ∧
    ¬ (Zone.mk 350 360 false).endD < 360 := by
  refine ⟨?_, by simp⟩
  exact genZones.snoc [] 10 350 genZones.nil (by norm_num) (by norm_num)
    (by norm_num) (by simp)

/-- C6 amended: every zone list `generateSuccessZones` can produce
consists of pairwise non-overlapping (disjoint closed interval) zones,
each with start at least 0 and end at most 360 (the end may equal 360
exactly, so the intervals lie within [0,360] rather than [0,360)). -/
theorem c6_zones_disjoint_bounded (zs : List Zone) (h : genZones zs) :
    zs.Pairwise zonesDisjoint ∧ ∀ z ∈ zs, 0 ≤ z.start ∧ z.endD ≤ 360 := by
  induction h with
  | nil => simp
  | snoc zs size startP hgen h10 h30 hle hnov ih =>
    constructor
    · rw [List.pairwise_append]
      refine ⟨ih.1, by simp, ?_⟩
      intro a ha b hb
      have hb1 : b = ⟨startP, startP + size, false⟩ := by simpa using hb
      subst hb1
      have := hnov a ha
      unfold zoneOverlap at this
      unfold zonesDisjoint
      dsimp only
      omega
    · intro z hz
      rcases List.mem_append.mp hz with hz | hz
      · exact ih.2 z hz
      · have hz1 : z = ⟨startP, startP + size, false⟩ := by simpa using hz
        subst hz1
        simp only [Zone.endD]
        omega

/-- Witness for the amended C6 at a concrete two-zone generation. -/
theorem c6_zones_disjoint_bounded_witness :
    List.Pairwise zonesDisjoint [Zone.mk 0 15 false, Zone.mk 100 120 false] ∧
    ∀ z ∈ [Zone.mk 0 15 false, Zone.mk 100 120 false],
      0 ≤ z.start ∧ z.endD ≤ 360 :=
  c6_zones_disjoint_bounded _
    (genZones.snoc [⟨0, 15, false⟩] 20 100
      (genZones.snoc [] 15 0 genZones.nil (by norm_num) (by norm_num)
        (by norm_num) (by simp))
      (by norm_num) (by norm_num) (by norm_num) (by decide))

/-- C10: On a failed Safe Cracker session, `showUnfoundZones` marks
every zone found (for display only), yet the dispatched metrics are
computed from the separate `foundZonesCount` counter and the
configuration: `zonesFound` equals the number of zones actually found
before the terminal transition and `totalZones` equals `config.zones`. -/
theorem c10_failure_metrics_unaffected (cfgZones : Nat) (s : SCState)
    (h : s.foundZonesCount = (s.zones.filter (fun z => z.found)).length) :
    (∀ z ∈ (scHandleGameOver cfgZones s false).1.zones, z.found = true) ∧
    ((scHandleGameOver cfgZones s false).2.2).2.lookup "zonesFound"
      = some (MetricVal.num ((s.zones.filter (fun z => z.found)).length)) ∧
    ((scHandleGameOver cfgZones s false).2.2).2.lookup "totalZones"
      = some (MetricVal.num cfgZones) := by
  refine ⟨?_, ?_, ?_⟩
  · intro z hz
    simp only [scHandleGameOver, showUnfoundZones, Bool.false_eq_true, if_false,
      List.mem_map] at hz
    obtain ⟨w, _, rfl⟩ := hz
    by_cases hw : w.found <;> simp [hw]
  · rw [← h]; rfl
  · rfl

/-- Witness for C10 at a concrete failed session with one found and one
unfound zone. -/
theorem c10_failure_metrics_unaffected_witness :
    (∀ z ∈ (scHandleGameOver 4
        ⟨GState.playing, 5000, 1, [⟨0, 15, true⟩, ⟨100, 120, false⟩]⟩
        false).1.zones, z.found = true) ∧
    ((scHandleGameOver 4
        ⟨GState.playing, 5000, 1, [⟨0, 15, true⟩, ⟨100, 120, false⟩]⟩
        false).2.2).2.lookup "zonesFound"
      = some (MetricVal.num
          (([⟨0, 15, true⟩, ⟨100, 120, false⟩] : List Zone).filter
            (fun z => z.found)).length) ∧
    ((scHandleGameOver 4
        ⟨GState.playing, 5000, 1, [⟨0, 15, true⟩, ⟨100, 120, false⟩]⟩
        false).2.2).2.lookup "totalZones" = some (MetricVal.num 4) :=
  c10_failure_metrics_unaffected 4
    ⟨GState.playing, 5000, 1, [⟨0, 15, true⟩, ⟨100, 120, false⟩]⟩ (by decide)

/-- Witness for C9 at a concrete timer and clock instants. -/
theorem c9_countdown_contract_witness :
    (timerTick ⟨0, 1000, true⟩ 1000).2.1 =
      some (max 0 ((1000 : Int) - (1000 - 0))) ∧
    (0 ≤ remainingAt ⟨0, 1000, true⟩ 1000 ∧
      ((1000 : Int) ≤ 2000 →
        remainingAt ⟨0, 1000, true⟩ 2000 ≤ remainingAt ⟨0, 1000, true⟩ 1000)) ∧
    (remainingAt ⟨0, 1000, true⟩ 1000 ≤ 0 →
      (timerTick ⟨0, 1000, true⟩ 1000).2.2 = true ∧
      (timerTick ⟨0, 1000, true⟩ 1000).1.running = false ∧
      (timerTick (timerTick ⟨0, 1000, true⟩ 1000).1 2000).2.2 = false ∧
      (timerTick (timerTick ⟨0, 1000, true⟩ 1000).1 2000).2.1 = none) ∧
    timerStop (timerStop ⟨0, 1000, true⟩) = timerStop ⟨0, 1000, true⟩ :=
  c9_countdown_contract ⟨0, 1000, true⟩ 1000 2000 rfl

/-- Each flood round only grows the powered set. -/
theorem powStep_subset {n : Nat} (g : Grid n) (s : Finset (Fin n × Fin n)) :
    s ⊆ powStep g s :=
  Finset.subset_union_left

/-- The iterated flood grows with the round count. -/
theorem propagateN_le {n : Nat} (g : Grid n) (s : Finset (Fin n × Fin n))
    {k m : Nat} (h : k ≤ m) : propagateN g s k ⊆ propagateN g s m := by
  induction m with
  | zero =>
    have hk : k = 0 := Nat.le_zero.mp h
    subst hk
    exact Finset.Subset.refl _
  | succ m ih =>
    by_cases hk : k ≤ m
    · refine (ih hk).trans ?_
      unfold propagateN
      rw [Function.iterate_succ_apply']
      exact powStep_subset g _
    · have hk1 : k = m + 1 := by omega
      subst hk1
      exact Finset.Subset.refl _

/-- Soundness: every cell the flood powers is reachable from the
source through mutual connections. -/
theorem propagateN_sound {n : Nat} (g : Grid n) (src : Fin n × Fin n)
    (k : Nat) : ∀ q ∈ propagateN g {src} k, Reach g src q := by
  induction k with
  | zero =>
    intro q hq
    rw [propagateN, Function.iterate_zero_apply, Finset.mem_singleton] at hq
    subst hq
    exact Relation.ReflTransGen.refl
  | succ k ih =>
    intro q hq
    rw [propagateN, Function.iterate_succ_apply'] at hq
    rcases Finset.mem_union.mp hq with h | h
    · exact ih q h
    · obtain ⟨-, p, hp, hconn⟩ := Finset.mem_filter.mp h
      exact (ih p hp).tail hconn

/-- An inflationary map on the finsets of a finite type reaches a
fixed point within `Fintype.card` steps. -/
theorem iterate_fix_exists {β : Type} [DecidableEq β] [Fintype β]
    (f : Finset β → Finset β) (hf : ∀ u, u ⊆ f u) (s : Finset β) :
    ∃ k ≤ Fintype.card β, f^[k + 1] s = f^[k] s := by
  by_contra hcon
  push_neg at hcon
  have key : ∀ j, j ≤ Fintype.card β + 1 → j ≤ (f^[j] s).card := by
    intro j
    induction j with
    | zero => exact fun _ => Nat.zero_le _
    | succ j ih =>
      intro hj
      have h1 : j ≤ (f^[j] s).card := ih (by omega)
      have hne : f^[j + 1] s ≠ f^[j] s := hcon j (by omega)
      have hsub : f^[j] s ⊆ f^[j + 1] s := by
        rw [Function.iterate_succ_apply']
        exact hf _
      have hlt : (f^[j] s).card < (f^[j + 1] s).card :=
        Finset.card_lt_card (HasSubset.Subset.ssubset_of_ne hsub (Ne.symm hne))
      omega
  have h2 := key (Fintype.card β + 1) le_rfl
  have h3 : (f^[Fintype.card β + 1] s).card ≤ Fintype.card β := by
    simpa using Finset.card_le_card (Finset.subset_univ (f^[Fintype.card β + 1] s))
  omega

/-- Once an iteration step changes nothing, every later iterate is the
same set. -/
theorem iterate_const_from {β : Type} (f : Finset β → Finset β)
    (s : Finset β) (k : Nat) (h : f^[k + 1] s = f^[k] s) :
    ∀ j, f^[k + j] s = f^[k] s := by
  intro j
  induction j with
  | zero => rfl
  | succ j ih =>
    have hstep : k + (j + 1) = (k + j) + 1 := by omega
    rw [hstep, Function.iterate_succ_apply', ih,
      ← Function.iterate_succ_apply' f k s, h]

/-- On an `n × n` grid, `n * n` flood rounds reach the fixed point. -/
theorem propagateN_fixed {n : Nat} (g : Grid n) (src : Fin n × Fin n) :
    powStep g (propagateN g {src} (n * n)) = propagateN g {src} (n * n) := by
  obtain ⟨k, hk, hfix⟩ := iterate_fix_exists (powStep g) (powStep_subset g) {src}
  have hcard : Fintype.card (Fin n × Fin n) = n * n := by simp
  rw [hcard] at hk
  have h1 : propagateN g {src} (n * n) = (powStep g)^[k] {src} := by
    have hconst := iterate_const_from (powStep g) {src} k hfix (n * n - k)
    rw [show k + (n * n - k) = n * n from by omega] at hconst
    exact hconst
  rw [h1, ← Function.iterate_succ_apply' (powStep g) k {src}, hfix]

/-- Completeness: every cell reachable from the source through mutual
connections is powered by the flood. -/
theorem reach_mem_propagateN {n : Nat} (g : Grid n) (src q : Fin n × Fin n)
    (h : Reach g src q) : q ∈ propagateN g {src} (n * n) := by
  induction h with
  | refl =>
    refine propagateN_le g {src} (Nat.zero_le (n * n)) ?_
    rw [propagateN, Function.iterate_zero_apply]
    exact Finset.mem_singleton_self src
  | tail hab hbc ih =>
    rw [← propagateN_fixed g src]
    apply Finset.mem_union_right
    rw [Finset.mem_filter]
    exact ⟨Finset.mem_univ _, _, ih, hbc⟩

/-- C2: For a grid whose unique source-typed cell is `src` and whose
previously powered set contains the source (both invariants of every
generated board), recomputing the power flow powers exactly the cells
reachable from the source through shared edges where both sides expose
a connection toward each other; the source is always powered; and
recomputing again from the resulting powered state yields the identical
powered set (the recomputation is a deterministic function, so two runs
from the same state agree, and it is idempotent). -/
theorem c2_power_iff_reachable {n : Nat} (g : Grid n) (src : Fin n × Fin n)
    (prev : Finset (Fin n × Fin n))
    (hsrc : ∀ p : Fin n × Fin n,
      (g p.1 p.2).type = PieceType.source ↔ p = src)
    (hprev : src ∈ prev) :
    (∀ q, q ∈ updatePowerFlow g src prev ↔ Reach g src q) ∧
    src ∈ updatePowerFlow g src prev ∧
    updatePowerFlow g src (updatePowerFlow g src prev) =
      updatePowerFlow g src prev := by
  have hreset : ∀ P : Finset (Fin n × Fin n), src ∈ P →
      P.filter (fun p => (g p.1 p.2).type = PieceType.source) = {src} := by
    intro P hP
    ext p
    simp only [Finset.mem_filter, Finset.mem_singleton, hsrc p]
    exact ⟨fun hx => hx.2, fun hx => ⟨hx ▸ hP, hx⟩⟩
  have hup : ∀ P : Finset (Fin n × Fin n), src ∈ P →
      updatePowerFlow g src P = propagateN g {src} (n * n) := by
    intro P hP
    unfold updatePowerFlow
    rw [hreset P hP]
    simp
  have hiff : ∀ q, q ∈ propagateN g {src} (n * n) ↔ Reach g src q :=
    fun q => ⟨fun hx => propagateN_sound g src (n * n) q hx,
      fun hx => reach_mem_propagateN g src q hx⟩
  have hsrcmem : src ∈ propagateN g {src} (n * n) :=
    (hiff src).mpr Relation.ReflTransGen.refl
  refine ⟨?_, ?_, ?_⟩
  · intro q
    rw [hup prev hprev]
    exact hiff q
  · rw [hup prev hprev]
    exact hsrcmem
  · rw [hup prev hprev, hup _ hsrcmem]

/-- Witness for C2 on the concrete board `gDemo`. -/
theorem c2_power_iff_reachable_witness :
    ((0 : Fin 2), (0 : Fin 2)) ∈
      updatePowerFlow gDemo ((0 : Fin 2), (0 : Fin 2))
        {((0 : Fin 2), (0 : Fin 2))} ∧
    updatePowerFlow gDemo ((0 : Fin 2), (0 : Fin 2))
        (updatePowerFlow gDemo ((0 : Fin 2), (0 : Fin 2))
          {((0 : Fin 2), (0 : Fin 2))}) =
      updatePowerFlow gDemo ((0 : Fin 2), (0 : Fin 2))
        {((0 : Fin 2), (0 : Fin 2))} :=
  ⟨(c2_power_iff_reachable gDemo ((0 : Fin 2), (0 : Fin 2))
      {((0 : Fin 2), (0 : Fin 2))} (by decide) (by decide)).2.1,
   (c2_power_iff_reachable gDemo ((0 : Fin 2), (0 : Fin 2))
      {((0 : Fin 2), (0 : Fin 2))} (by decide) (by decide)).2.2⟩
